import Mathlib

/-!
Verification of the `ahrs` simple attitude estimator (`ahrs_simple.go`).

The Go source is embedded shallowly over the real numbers: every float64
value becomes a real number, every struct becomes a structure, and the
mutating methods become state-passing functions.  The quaternion/angle
utilities (`ToQuaternion`, `QuaternionRotate`, `Regularize`) and the
constants `Deg` and `G` live in a file of the repository that is not part
of the sources given here; they are modelled from the specification §4.1
and §6, and each such definition is marked `Modelled from the spec`.
-/

set_option maxHeartbeats 1000000

noncomputable section

namespace Ahrs

/-- `MinDT`: below this time interval, don't recalculate (Go const). -/
def MinDT : ℝ := 1e-6

/-- `MaxDT`: above this time interval, re-initialize--too stale (Go const). -/
def MaxDT : ℝ := 10

/-- `MinGS`: below this groundspeed, don't use any GPS data (Go const). -/
def MinGS : ℝ := 10

/-- `K`: reversion constant (Go const). -/
def K : ℝ := 0.9

/-- Modelled from the spec (§6): `Deg`, the degrees-to-radians factor,
a constant of the repository outside the given sources. -/
def Deg : ℝ := Real.pi / 180

/-- Modelled from the spec (§6): `G`, standard gravity expressed in
knots per second (ft/s² divided by ft/s per knot), a constant of the
repository outside the given sources.  No claim depends on its value. -/
def G : ℝ := 32.1740 / 1.687810

/-- Go's `math.Hypot x y = sqrt (x² + y²)` over the reals. -/
def hypot (x y : ℝ) : ℝ := Real.sqrt (x * x + y * y)

/-- Go's `math.Atan2 y x` over the reals (finite inputs). -/
def atan2 (y x : ℝ) : ℝ :=
  if 0 < x then Real.arctan (y / x)
  else if x < 0 then
    (if 0 ≤ y then Real.arctan (y / x) + Real.pi else Real.arctan (y / x) - Real.pi)
  else
    (if 0 < y then Real.pi / 2 else if y < 0 then -(Real.pi / 2) else 0)

/-- Modelled from the spec (§4.1 `rotateQuaternion`, not under the given
sources): compose the attitude quaternion with the first-order small-angle
rotation quaternion `(1, h1/2, h2/2, h3/2)`. -/
def QuaternionRotate (q0 q1 q2 q3 h1 h2 h3 : ℝ) : ℝ × ℝ × ℝ × ℝ :=
  (q0 - (h1 * q1 + h2 * q2 + h3 * q3) / 2,
   q1 + (h1 * q0 + h3 * q2 - h2 * q3) / 2,
   q2 + (h2 * q0 - h3 * q1 + h1 * q3) / 2,
   q3 + (h3 * q0 + h2 * q1 - h1 * q2) / 2)

/-- Modelled from the spec (§4.1 `eulerToQuaternion`, not under the given
sources): the standard aerospace yaw-pitch-roll Euler-to-quaternion map. -/
def ToQuaternion (roll pitch heading : ℝ) : ℝ × ℝ × ℝ × ℝ :=
  (Real.cos (roll / 2) * Real.cos (pitch / 2) * Real.cos (heading / 2) +
     Real.sin (roll / 2) * Real.sin (pitch / 2) * Real.sin (heading / 2),
   Real.sin (roll / 2) * Real.cos (pitch / 2) * Real.cos (heading / 2) -
     Real.cos (roll / 2) * Real.sin (pitch / 2) * Real.sin (heading / 2),
   Real.cos (roll / 2) * Real.sin (pitch / 2) * Real.cos (heading / 2) +
     Real.sin (roll / 2) * Real.cos (pitch / 2) * Real.sin (heading / 2),
   Real.cos (roll / 2) * Real.cos (pitch / 2) * Real.sin (heading / 2) -
     Real.sin (roll / 2) * Real.sin (pitch / 2) * Real.cos (heading / 2))

/-- Wrap an angle into the half-open interval `(-π, π]`. -/
def wrapAngle (x : ℝ) : ℝ :=
  x - 2 * Real.pi * (Int.ceil ((x - Real.pi) / (2 * Real.pi)) : ℤ)

/-- Modelled from the spec (§4.1 `Regularize`, not under the given
sources): wrap roll, pitch and heading into canonical ranges. -/
def Regularize (roll pitch heading : ℝ) : ℝ × ℝ × ℝ :=
  (wrapAngle roll, wrapAngle pitch, wrapAngle heading)

/-- The fields of a `Measurement` used by the simple estimator:
timestamp `T` (s), GPS velocity `W1 W2 W3` (kt) with validity flag
`WValid`, and gyro rates `B1 B2 B3` (deg/s). -/
structure Measurement where
  T : ℝ
  WValid : Bool
  W1 : ℝ
  W2 : ℝ
  W3 : ℝ
  B1 : ℝ
  B2 : ℝ
  B3 : ℝ

/-- `SimpleState`: the embedded `State` fields used by the algorithm
(timestamp `T`, attitude quaternion `E0..E3`) together with the
GPS-derived attitude, the fused attitude, the groundspeed/velocity
tracking and the turn rate.  The never-populated covariance matrices
`M`, `N` are omitted (spec §1: kept only as containers, unused). -/
structure SimpleState where
  T : ℝ
  E0 : ℝ
  E1 : ℝ
  E2 : ℝ
  E3 : ℝ
  rollGPS : ℝ
  pitchGPS : ℝ
  headingGPS : ℝ
  roll : ℝ
  pitch : ℝ
  heading : ℝ
  w1 : ℝ
  w2 : ℝ
  w3 : ℝ
  gs : ℝ
  tr : ℝ

namespace SimpleState

/-- `(*SimpleState) init` (lines 32-61): initialization from a
measurement.  In Go it overwrites every algorithm field of the receiver,
so it is a function of the measurement alone. -/
def init (m : Measurement) : SimpleState :=
  let gs := if m.WValid then hypot m.W1 m.W2 else 0
  let w1 := if m.WValid then m.W1 else 0
  let w2 := if m.WValid then m.W2 else 0
  let w3 := if m.WValid then m.W3 else 0
  let headingGPS := if gs > MinGS then atan2 m.W1 m.W2 else Real.pi / 2
  let pitchGPS := if gs > MinGS then atan2 m.W3 gs else 0
  let q := ToQuaternion 0 pitchGPS headingGPS
  { T := m.T
    E0 := q.1, E1 := q.2.1, E2 := q.2.2.1, E3 := q.2.2.2
    rollGPS := 0, pitchGPS := pitchGPS, headingGPS := headingGPS
    roll := 0, pitch := pitchGPS, heading := headingGPS
    w1 := w1, w2 := w2, w3 := w3, gs := gs, tr := 0 }

/-- Line 113: `rx := 2 * (q0*q1 + q2*q3)`, the roll `atan2` numerator. -/
def roll_rx (q0 q1 q2 q3 : ℝ) : ℝ := 2 * (q0 * q1 + q2 * q3)

/-- Line 114: `ry := q0*q0 - q1*q1 - q2*q2 - q3*q3`, the roll denominator
as the code computes it (the line carries the comment
`TODO westphae: this is wrong`). -/
def roll_ry (q0 q1 q2 q3 : ℝ) : ℝ := q0 * q0 - q1 * q1 - q2 * q2 - q3 * q3

/-- Line 115: `drx := 2 * (q1*dq0 + q0*dq1 + q3*dq2 + q2*dq3)`. -/
def roll_drx (q0 q1 q2 q3 dq0 dq1 dq2 dq3 : ℝ) : ℝ :=
  2 * (q1 * dq0 + q0 * dq1 + q3 * dq2 + q2 * dq3)

/-- Line 116: `dry := 2 * (q0*dq0 - q1*dq1 - q2*dq2 + q3*dq3)`. -/
def roll_dry (q0 q1 q2 q3 dq0 dq1 dq2 dq3 : ℝ) : ℝ :=
  2 * (q0 * dq0 - q1 * dq1 - q2 * dq2 + q3 * dq3)

/-- The standard quaternion-to-Euler roll denominator
`q0² - q1² - q2² + q3²`, written from the spec's words (§4.2, the
standard formula `roll = atan2(rx, ry)`), for comparison with the
code's `roll_ry`. -/
def stdRollDenom (q0 q1 q2 q3 : ℝ) : ℝ := q0 * q0 - q1 * q1 - q2 * q2 + q3 * q3

/-- Lines 82-84: `if m.WValid { s.gs = math.Hypot(m.W1, m.W2) }`. -/
def newGs (s : SimpleState) (m : Measurement) : ℝ :=
  if m.WValid then hypot m.W1 m.W2 else s.gs

/-- Lines 82-102: the GPS-derived attitude refresh.  With valid GPS and
groundspeed above `MinGS`, filter the turn rate and recompute the GPS
attitude; otherwise zero the turn rate, hold the GPS attitude at the
current fused values and zero the velocity tracking. -/
def gpsRefresh (s : SimpleState) (m : Measurement) (dt : ℝ) : SimpleState :=
  let gs := newGs s m
  if m.WValid ∧ gs > MinGS then
    let tr := 0.9 * s.tr + 0.1 * (m.W2 * (m.W1 - s.w1) - m.W1 * (m.W2 - s.w2)) / (gs * gs) / dt
    { s with gs := gs, tr := tr
             rollGPS := Real.arctan (gs * tr / G)
             pitchGPS := atan2 m.W3 gs
             headingGPS := atan2 m.W1 m.W2
             w1 := m.W1, w2 := m.W2, w3 := m.W3 }
  else
    { s with gs := gs, tr := 0
             rollGPS := s.roll, pitchGPS := s.pitch, headingGPS := s.heading
             w1 := 0, w2 := 0, w3 := 0 }

/-- Lines 104-138: propagate the quaternion by the gyro increment
(`QuaternionRotate` with angles `B1*Deg*dt`, `B2*Deg*dt`, `B3*Deg*dt`),
form the componentwise increment `dq`, and extract the linearized
roll, pitch and heading increments `(dr, dp, dh)`. -/
def rawIncs (s : SimpleState) (m : Measurement) (dt : ℝ) : ℝ × ℝ × ℝ :=
  let q0 := s.E0
  let q1 := s.E1
  let q2 := s.E2
  let q3 := s.E3
  let r := QuaternionRotate q0 q1 q2 q3 (m.B1 * Deg * dt) (m.B2 * Deg * dt) (m.B3 * Deg * dt)
  let dq0 := r.1 - q0
  let dq1 := r.2.1 - q1
  let dq2 := r.2.2.1 - q2
  let dq3 := r.2.2.2 - q3
  let rx := roll_rx q0 q1 q2 q3
  let ry := roll_ry q0 q1 q2 q3
  let drx := roll_drx q0 q1 q2 q3 dq0 dq1 dq2 dq3
  let dry := roll_dry q0 q1 q2 q3 dq0 dq1 dq2 dq3
  let dr := (ry * drx - rx * dry) / (rx * rx + ry * ry)
  let px := -2 * (q0 * q2 - q3 * q1)
  let py := q0 * q0 + q1 * q1 + q2 * q2 + q3 * q3
  let dpx := -2 * (q2 * dq0 - q3 * dq1 + q0 * dq2 - q1 * dq3)
  let dpy := 2 * (q0 * dq0 + q1 * dq1 + q2 * dq2 + q3 * dq3)
  let dp := (py * dpx - px * dpy) / (py * Real.sqrt (py * py - px * px))
  let hx := -2 * (q0 * q3 - q1 * q2)
  let hy := q0 * q0 + q1 * q1 - q2 * q2 - q3 * q3
  let dhx := -2 * (q3 * dq0 - q2 * dq1 - q1 * dq2 + q0 * dq3)
  let dhy := 2 * (q0 * dq0 + q1 * dq1 - q2 * dq2 - q3 * dq3)
  let dh := (hy * dhx - hx * dhy) / (hx * hx + hy * hy)
  (dr, dp, dh)

/-- Lines 147-152: wrap the heading discrepancy by a single conditional
`± 2π` correction. -/
def wrapPi (x : ℝ) : ℝ :=
  if x > Real.pi then x - 2 * Real.pi
  else if x < -Real.pi then x + 2 * Real.pi
  else x

/-- Lines 141-155 (per axis): damp the increment by `K` exactly when the
product of the discrepancy with the increment is strictly positive. -/
def damp (disc inc : ℝ) : ℝ := if disc * inc > 0 then K * inc else inc

/-- Lines 141-155: the applied (possibly damped) roll, pitch and heading
increments.  The discrepancies compare the pre-update fused attitude
(unchanged by `gpsRefresh`) with the refreshed GPS attitude, the heading
one after wrapping by `wrapPi`. -/
def appliedIncs (s : SimpleState) (m : Measurement) (dt : ℝ) : ℝ × ℝ × ℝ :=
  let s1 := gpsRefresh s m dt
  let raw := rawIncs s m dt
  (damp (s1.roll - s1.rollGPS) raw.1,
   damp (s1.pitch - s1.pitchGPS) raw.2.1,
   damp (wrapPi (s1.heading - s1.headingGPS)) raw.2.2)

/-- Lines 82-164: the body of `Update` once both time gates have been
passed: GPS refresh, gyro increments, damping, apply, regularize,
rebuild the quaternion, stamp the time. -/
def normalUpdate (s : SimpleState) (m : Measurement) (dt : ℝ) : SimpleState :=
  let s1 := gpsRefresh s m dt
  let a := appliedIncs s m dt
  let rph := Regularize (s1.roll + a.1) (s1.pitch + a.2.1) (s1.heading + a.2.2)
  let q := ToQuaternion rph.1 rph.2.1 rph.2.2
  { s1 with roll := rph.1, pitch := rph.2.1, heading := rph.2.2
            E0 := q.1, E1 := q.2.1, E2 := q.2.2.1, E3 := q.2.2.2
            T := m.T }

/-- `(*SimpleState) Update` (lines 72-165). -/
def Update (s : SimpleState) (m : Measurement) : SimpleState :=
  let dt := m.T - s.T
  if dt < MinDT then s
  else if dt > MaxDT then init m
  else normalUpdate s m dt

/-- `(*SimpleState) Predict` (lines 68-70): a no-op. -/
def Predict (s : SimpleState) (_t : ℝ) : SimpleState := s

/-- `(*SimpleState) Compute` (lines 63-66): `Predict` then `Update`. -/
def Compute (s : SimpleState) (m : Measurement) : SimpleState :=
  (s.Predict m.T).Update m

end SimpleState

/-- `InitializeSimple` (lines 24-30): a fresh state initialized from a
measurement (the zeroed, never-read covariance matrices are omitted). -/
def InitializeSimple (m : Measurement) : SimpleState := SimpleState.init m

/-- The quaternion stored in a state agrees with `ToQuaternion` applied
to its fused Euler angles. -/
def quatConsistent (s : SimpleState) : Prop :=
  (s.E0, s.E1, s.E2, s.E3) = ToQuaternion s.roll s.pitch s.heading

/-- The at-rest state of the spec's end-to-end scenario (§8): time 0,
fused and GPS attitude all zero, identity quaternion, zero velocity
tracking and turn rate. -/
def restState : SimpleState :=
  { T := 0, E0 := 1, E1 := 0, E2 := 0, E3 := 0
    rollGPS := 0, pitchGPS := 0, headingGPS := 0
    roll := 0, pitch := 0, heading := 0
    w1 := 0, w2 := 0, w3 := 0, gs := 0, tr := 0 }

/-- The measurement of the spec's end-to-end scenario (§8): t = 1 s,
zero gyro rates, valid GPS velocity (20, 0, 0) kt. -/
def scenarioMeas : Measurement :=
  { T := 1, WValid := true, W1 := 20, W2 := 0, W3 := 0, B1 := 0, B2 := 0, B3 := 0 }

/-- A measurement with invalid GPS velocity at t = 1 s and a nonzero
gyro rate about the first body axis. -/
def noGpsMeas : Measurement :=
  { T := 1, WValid := false, W1 := 0, W2 := 0, W3 := 0, B1 := 1, B2 := 0, B3 := 0 }

/-- A measurement that is 11 s newer than `restState`: stale. -/
def staleMeas : Measurement :=
  { T := 11, WValid := false, W1 := 0, W2 := 0, W3 := 0, B1 := 0, B2 := 0, B3 := 0 }

/-- A measurement timestamped before `restState`: out of order. -/
def earlyMeas : Measurement :=
  { T := -1, WValid := true, W1 := 20, W2 := 0, W3 := 0, B1 := 1, B2 := 2, B3 := 3 }

section Lemmas

open SimpleState

lemma minDT_le_maxDT : MinDT ≤ MaxDT := by norm_num [MinDT, MaxDT]

lemma update_noop (s : SimpleState) (m : Measurement) (h : m.T - s.T < MinDT) :
    s.Update m = s := by
  unfold SimpleState.Update
  simp only [if_pos h]

lemma update_stale (s : SimpleState) (m : Measurement) (h : m.T - s.T > MaxDT) :
    s.Update m = init m := by
  have h1 : ¬ m.T - s.T < MinDT := not_lt.mpr (le_trans minDT_le_maxDT h.le)
  unfold SimpleState.Update
  simp only [if_neg h1, if_pos h]

lemma update_normal (s : SimpleState) (m : Measurement)
    (h1 : MinDT ≤ m.T - s.T) (h2 : m.T - s.T ≤ MaxDT) :
    s.Update m = normalUpdate s m (m.T - s.T) := by
  unfold SimpleState.Update
  simp only [if_neg (not_lt.mpr h1), if_neg (not_lt.mpr h2)]

lemma compute_eq_update (s : SimpleState) (m : Measurement) :
    s.Compute m = s.Update m := rfl

lemma quatConsistent_init (m : Measurement) : quatConsistent (init m) := by
  simp [quatConsistent, SimpleState.init]

lemma quatConsistent_normalUpdate (s : SimpleState) (m : Measurement) (dt : ℝ) :
    quatConsistent (normalUpdate s m dt) := by
  simp [quatConsistent, normalUpdate]

lemma gpsRefresh_roll (s : SimpleState) (m : Measurement) (dt : ℝ) :
    (gpsRefresh s m dt).roll = s.roll := by
  simp only [gpsRefresh]
  split <;> rfl

lemma gpsRefresh_pitch (s : SimpleState) (m : Measurement) (dt : ℝ) :
    (gpsRefresh s m dt).pitch = s.pitch := by
  simp only [gpsRefresh]
  split <;> rfl

lemma gpsRefresh_heading (s : SimpleState) (m : Measurement) (dt : ℝ) :
    (gpsRefresh s m dt).heading = s.heading := by
  simp only [gpsRefresh]
  split <;> rfl

lemma gpsRefresh_hold (s : SimpleState) (m : Measurement) (dt : ℝ)
    (h : m.WValid = false ∨ hypot m.W1 m.W2 ≤ MinGS) :
    gpsRefresh s m dt =
      { s with gs := newGs s m, tr := 0
               rollGPS := s.roll, pitchGPS := s.pitch, headingGPS := s.heading
               w1 := 0, w2 := 0, w3 := 0 } := by
  have hc : ¬ (m.WValid = true ∧ newGs s m > MinGS) := by
    rcases h with h | h
    · rintro ⟨hv, -⟩
      rw [h] at hv
      exact Bool.false_ne_true hv
    · rintro ⟨hv, hgs⟩
      rw [newGs, if_pos hv] at hgs
      exact absurd h (not_le.mpr hgs)
  simp only [gpsRefresh]
  rw [if_neg hc]

lemma gpsRefresh_go (s : SimpleState) (m : Measurement) (dt : ℝ)
    (hv : m.WValid = true) (hgs : hypot m.W1 m.W2 > MinGS) :
    gpsRefresh s m dt =
      { s with gs := hypot m.W1 m.W2
               tr := 0.9 * s.tr +
                 0.1 * (m.W2 * (m.W1 - s.w1) - m.W1 * (m.W2 - s.w2)) /
                   (hypot m.W1 m.W2 * hypot m.W1 m.W2) / dt
               rollGPS := Real.arctan (hypot m.W1 m.W2 *
                 (0.9 * s.tr +
                   0.1 * (m.W2 * (m.W1 - s.w1) - m.W1 * (m.W2 - s.w2)) /
                     (hypot m.W1 m.W2 * hypot m.W1 m.W2) / dt) / G)
               pitchGPS := atan2 m.W3 (hypot m.W1 m.W2)
               headingGPS := atan2 m.W1 m.W2
               w1 := m.W1, w2 := m.W2, w3 := m.W3 } := by
  have hg : newGs s m = hypot m.W1 m.W2 := by rw [newGs, if_pos hv]
  simp only [gpsRefresh, hg]
  rw [if_pos ⟨hv, hgs⟩]

lemma normalUpdate_roll (s : SimpleState) (m : Measurement) (dt : ℝ) :
    (normalUpdate s m dt).roll =
      wrapAngle (s.roll + (appliedIncs s m dt).1) := by
  simp only [normalUpdate, Regularize, gpsRefresh_roll]

lemma normalUpdate_pitch (s : SimpleState) (m : Measurement) (dt : ℝ) :
    (normalUpdate s m dt).pitch =
      wrapAngle (s.pitch + (appliedIncs s m dt).2.1) := by
  simp only [normalUpdate, Regularize, gpsRefresh_pitch]

lemma normalUpdate_heading (s : SimpleState) (m : Measurement) (dt : ℝ) :
    (normalUpdate s m dt).heading =
      wrapAngle (s.heading + (appliedIncs s m dt).2.2) := by
  simp only [normalUpdate, Regularize, gpsRefresh_heading]

lemma normalUpdate_rollGPS (s : SimpleState) (m : Measurement) (dt : ℝ) :
    (normalUpdate s m dt).rollGPS = (gpsRefresh s m dt).rollGPS := by
  simp only [normalUpdate]

lemma normalUpdate_pitchGPS (s : SimpleState) (m : Measurement) (dt : ℝ) :
    (normalUpdate s m dt).pitchGPS = (gpsRefresh s m dt).pitchGPS := by
  simp only [normalUpdate]

lemma normalUpdate_headingGPS (s : SimpleState) (m : Measurement) (dt : ℝ) :
    (normalUpdate s m dt).headingGPS = (gpsRefresh s m dt).headingGPS := by
  simp only [normalUpdate]

lemma normalUpdate_tr (s : SimpleState) (m : Measurement) (dt : ℝ) :
    (normalUpdate s m dt).tr = (gpsRefresh s m dt).tr := by
  simp only [normalUpdate]

lemma normalUpdate_w1 (s : SimpleState) (m : Measurement) (dt : ℝ) :
    (normalUpdate s m dt).w1 = (gpsRefresh s m dt).w1 := by
  simp only [normalUpdate]

lemma normalUpdate_w2 (s : SimpleState) (m : Measurement) (dt : ℝ) :
    (normalUpdate s m dt).w2 = (gpsRefresh s m dt).w2 := by
  simp only [normalUpdate]

lemma normalUpdate_w3 (s : SimpleState) (m : Measurement) (dt : ℝ) :
    (normalUpdate s m dt).w3 = (gpsRefresh s m dt).w3 := by
  simp only [normalUpdate]

lemma wrapPi_zero : wrapPi 0 = 0 := by
  have hπ := Real.pi_pos
  rw [wrapPi, if_neg (by linarith), if_neg (by linarith)]

lemma damp_zero_disc (inc : ℝ) : damp 0 inc = inc := by
  rw [damp, if_neg (by simp)]

lemma appliedIncs_eq_damp (s : SimpleState) (m : Measurement) (dt : ℝ) :
    appliedIncs s m dt =
      (damp (s.roll - (gpsRefresh s m dt).rollGPS) (rawIncs s m dt).1,
       damp (s.pitch - (gpsRefresh s m dt).pitchGPS) (rawIncs s m dt).2.1,
       damp (wrapPi (s.heading - (gpsRefresh s m dt).headingGPS)) (rawIncs s m dt).2.2) := by
  simp only [appliedIncs, gpsRefresh_roll, gpsRefresh_pitch, gpsRefresh_heading]

lemma hypot_20_0 : hypot 20 0 = 20 := by
  rw [hypot, show (20 : ℝ) * 20 + 0 * 0 = 20 ^ 2 by norm_num]
  exact Real.sqrt_sq (by norm_num)

lemma atan2_20_0 : atan2 20 0 = Real.pi / 2 := by
  rw [atan2]
  norm_num

lemma damp_zero_inc (disc : ℝ) : damp disc 0 = 0 := by
  simp [damp]

lemma wrapAngle_zero : wrapAngle 0 = 0 := by
  have hπ : Real.pi ≠ 0 := ne_of_gt Real.pi_pos
  have h1 : ((0 : ℝ) - Real.pi) / (2 * Real.pi) = -(1 / 2) := by
    field_simp
    ring
  have h2 : Int.ceil ((-(1 / 2)) : ℝ) = 0 := by
    rw [Int.ceil_eq_zero_iff]
    constructor <;> norm_num
  rw [wrapAngle, h1, h2]
  norm_num

lemma scenario_h1 : MinDT ≤ scenarioMeas.T - restState.T := by
  norm_num [scenarioMeas, restState, MinDT]

lemma scenario_h2 : scenarioMeas.T - restState.T ≤ MaxDT := by
  norm_num [scenarioMeas, restState, MaxDT]

lemma scenario_hgs : hypot scenarioMeas.W1 scenarioMeas.W2 > MinGS := by
  rw [show scenarioMeas.W1 = (20 : ℝ) from rfl, show scenarioMeas.W2 = (0 : ℝ) from rfl,
    hypot_20_0, MinGS]
  norm_num

lemma scenario_rawIncs :
    rawIncs restState scenarioMeas (scenarioMeas.T - restState.T) = (0, 0, 0) := by
  norm_num [rawIncs, QuaternionRotate, restState, scenarioMeas, roll_rx, roll_ry,
    roll_drx, roll_dry, Real.sqrt_one]

lemma scenario_headingGPS :
    (restState.Compute scenarioMeas).headingGPS = Real.pi / 2 := by
  rw [compute_eq_update, update_normal restState scenarioMeas scenario_h1 scenario_h2,
    normalUpdate_headingGPS,
    gpsRefresh_go restState scenarioMeas (scenarioMeas.T - restState.T) rfl scenario_hgs]
  show atan2 scenarioMeas.W1 scenarioMeas.W2 = Real.pi / 2
  rw [show scenarioMeas.W1 = (20 : ℝ) from rfl, show scenarioMeas.W2 = (0 : ℝ) from rfl]
  exact atan2_20_0

lemma scenario_heading : (restState.Compute scenarioMeas).heading = 0 := by
  rw [compute_eq_update, update_normal restState scenarioMeas scenario_h1 scenario_h2,
    normalUpdate_heading, appliedIncs_eq_damp, scenario_rawIncs]
  simp [damp_zero_inc, wrapAngle_zero, show restState.heading = (0 : ℝ) from rfl]

lemma restState_consistent : quatConsistent restState := by
  norm_num [quatConsistent, restState, ToQuaternion]

end Lemmas

section Claims

open SimpleState

/-- C6: for every state and measurement with elapsed time
`m.T - s.T < 1e-6` (duplicates and out-of-order timestamps included),
`Compute` leaves every field of the state unchanged. -/
theorem compute_noop_gate (s : SimpleState) (m : Measurement)
    (h : m.T - s.T < MinDT) : s.Compute m = s := by
  rw [compute_eq_update]
  exact update_noop s m h

/-- Witness for `compute_noop_gate`: an out-of-order measurement 1 s in
the past leaves `restState` unchanged. -/
theorem compute_noop_gate_witness :
    earlyMeas.T - restState.T < MinDT ∧ restState.Compute earlyMeas = restState :=
  ⟨by norm_num [earlyMeas, restState, MinDT],
   compute_noop_gate restState earlyMeas (by norm_num [earlyMeas, restState, MinDT])⟩

/-- C5: for every state and measurement with elapsed time above 10 s,
`Compute` leaves the state equal to a fresh initialization from that
measurement alone, independent of the prior state. -/
theorem compute_stale_reinit (s : SimpleState) (m : Measurement)
    (h : m.T - s.T > MaxDT) : s.Compute m = InitializeSimple m := by
  rw [compute_eq_update]
  exact update_stale s m h

/-- Witness for `compute_stale_reinit`: a measurement 11 s after
`restState` reinitializes. -/
theorem compute_stale_reinit_witness :
    staleMeas.T - restState.T > MaxDT ∧
      restState.Compute staleMeas = InitializeSimple staleMeas :=
  ⟨by norm_num [staleMeas, restState, MaxDT],
   compute_stale_reinit restState staleMeas (by norm_num [staleMeas, restState, MaxDT])⟩

/-- C9: after initialization, and after every `Compute` call that
mutates the state, the stored quaternion equals `ToQuaternion` of the
stored fused Euler angles. -/
theorem quat_euler_consistency :
    (∀ m : Measurement, quatConsistent (InitializeSimple m)) ∧
      (∀ (s : SimpleState) (m : Measurement),
        s.Compute m = s ∨ quatConsistent (s.Compute m)) := by
  constructor
  · intro m
    exact quatConsistent_init m
  · intro s m
    rw [compute_eq_update]
    by_cases h1 : m.T - s.T < MinDT
    · left
      exact update_noop s m h1
    · right
      by_cases h2 : m.T - s.T > MaxDT
      · rw [update_stale s m h2]
        exact quatConsistent_init m
      · rw [update_normal s m (not_lt.mp h1) (not_lt.mp h2)]
        exact quatConsistent_normalUpdate s m (m.T - s.T)

/-- C4: in every normal update (1e-6 ≤ dt ≤ 10) with invalid GPS
velocity or groundspeed at most 10 kt, the GPS attitude is held at the
pre-update fused attitude, the turn rate is zeroed and the velocity
tracking is zeroed. -/
theorem update_low_speed_hold (s : SimpleState) (m : Measurement)
    (h1 : MinDT ≤ m.T - s.T) (h2 : m.T - s.T ≤ MaxDT)
    (h : m.WValid = false ∨ hypot m.W1 m.W2 ≤ MinGS) :
    (s.Update m).rollGPS = s.roll ∧ (s.Update m).pitchGPS = s.pitch ∧
      (s.Update m).headingGPS = s.heading ∧ (s.Update m).tr = 0 ∧
      (s.Update m).w1 = 0 ∧ (s.Update m).w2 = 0 ∧ (s.Update m).w3 = 0 := by
  rw [update_normal s m h1 h2, normalUpdate_rollGPS, normalUpdate_pitchGPS,
    normalUpdate_headingGPS, normalUpdate_tr, normalUpdate_w1, normalUpdate_w2,
    normalUpdate_w3, gpsRefresh_hold s m (m.T - s.T) h]
  exact ⟨rfl, rfl, rfl, rfl, rfl, rfl, rfl⟩

/-- Witness for `update_low_speed_hold`: a GPS-invalid measurement 1 s
after `restState`. -/
theorem update_low_speed_hold_witness :
    MinDT ≤ noGpsMeas.T - restState.T ∧ noGpsMeas.T - restState.T ≤ MaxDT ∧
      noGpsMeas.WValid = false ∧
      (restState.Update noGpsMeas).rollGPS = restState.roll ∧
      (restState.Update noGpsMeas).tr = 0 ∧ (restState.Update noGpsMeas).w1 = 0 := by
  have h1 : MinDT ≤ noGpsMeas.T - restState.T := by norm_num [noGpsMeas, restState, MinDT]
  have h2 : noGpsMeas.T - restState.T ≤ MaxDT := by norm_num [noGpsMeas, restState, MaxDT]
  have H := update_low_speed_hold restState noGpsMeas h1 h2 (Or.inl rfl)
  exact ⟨h1, h2, rfl, H.1, H.2.2.2.1, H.2.2.2.2.1⟩

/-- C7: in every normal update with valid GPS velocity and groundspeed
above 10 kt, the turn rate is refreshed by the 0.9/0.1 exponential
filter, and the GPS attitude and last velocity are recomputed from it
and the measurement. -/
theorem update_gps_refresh (s : SimpleState) (m : Measurement)
    (h1 : MinDT ≤ m.T - s.T) (h2 : m.T - s.T ≤ MaxDT)
    (hv : m.WValid = true) (hgs : hypot m.W1 m.W2 > MinGS) :
    (s.Update m).tr = 0.9 * s.tr +
        0.1 * (m.W2 * (m.W1 - s.w1) - m.W1 * (m.W2 - s.w2)) /
          (hypot m.W1 m.W2 * hypot m.W1 m.W2) / (m.T - s.T) ∧
      (s.Update m).rollGPS = Real.arctan (hypot m.W1 m.W2 * (s.Update m).tr / G) ∧
      (s.Update m).pitchGPS = atan2 m.W3 (hypot m.W1 m.W2) ∧
      (s.Update m).headingGPS = atan2 m.W1 m.W2 ∧
      (s.Update m).w1 = m.W1 ∧ (s.Update m).w2 = m.W2 ∧ (s.Update m).w3 = m.W3 := by
  rw [update_normal s m h1 h2, normalUpdate_tr, normalUpdate_rollGPS,
    normalUpdate_pitchGPS, normalUpdate_headingGPS, normalUpdate_w1,
    normalUpdate_w2, normalUpdate_w3, gpsRefresh_go s m (m.T - s.T) hv hgs]
  exact ⟨rfl, rfl, rfl, rfl, rfl, rfl, rfl⟩

/-- Witness for `update_gps_refresh`: the scenario measurement (20 kt
due north) 1 s after `restState`. -/
theorem update_gps_refresh_witness :
    MinDT ≤ scenarioMeas.T - restState.T ∧ scenarioMeas.T - restState.T ≤ MaxDT ∧
      scenarioMeas.WValid = true ∧ hypot scenarioMeas.W1 scenarioMeas.W2 > MinGS ∧
      (restState.Update scenarioMeas).headingGPS = atan2 scenarioMeas.W1 scenarioMeas.W2 ∧
      (restState.Update scenarioMeas).w1 = scenarioMeas.W1 := by
  have hgs : hypot scenarioMeas.W1 scenarioMeas.W2 > MinGS := by
    rw [show scenarioMeas.W1 = (20 : ℝ) from rfl, show scenarioMeas.W2 = (0 : ℝ) from rfl,
      hypot_20_0, MinGS]
    norm_num
  have h1 : MinDT ≤ scenarioMeas.T - restState.T := by norm_num [scenarioMeas, restState, MinDT]
  have h2 : scenarioMeas.T - restState.T ≤ MaxDT := by norm_num [scenarioMeas, restState, MaxDT]
  have H := update_gps_refresh restState scenarioMeas h1 h2 rfl hgs
  exact ⟨h1, h2, rfl, hgs, H.2.2.2.1, H.2.2.2.2.1⟩

/-- C1: in every normal update, each of the roll, pitch and heading
increments is multiplied by exactly K = 0.9 when the product of the
discrepancy (fused minus refreshed-GPS value, the heading one wrapped
by `wrapPi`) with the raw increment is strictly positive, and applied
unchanged otherwise. -/
theorem update_damping (s : SimpleState) (m : Measurement)
    (h1 : MinDT ≤ m.T - s.T) (h2 : m.T - s.T ≤ MaxDT) :
    (s.Update m).roll = wrapAngle (s.roll +
        (if (s.roll - (gpsRefresh s m (m.T - s.T)).rollGPS) * (rawIncs s m (m.T - s.T)).1 > 0
         then K * (rawIncs s m (m.T - s.T)).1 else (rawIncs s m (m.T - s.T)).1)) ∧
      (s.Update m).pitch = wrapAngle (s.pitch +
        (if (s.pitch - (gpsRefresh s m (m.T - s.T)).pitchGPS) * (rawIncs s m (m.T - s.T)).2.1 > 0
         then K * (rawIncs s m (m.T - s.T)).2.1 else (rawIncs s m (m.T - s.T)).2.1)) ∧
      (s.Update m).heading = wrapAngle (s.heading +
        (if wrapPi (s.heading - (gpsRefresh s m (m.T - s.T)).headingGPS) *
              (rawIncs s m (m.T - s.T)).2.2 > 0
         then K * (rawIncs s m (m.T - s.T)).2.2 else (rawIncs s m (m.T - s.T)).2.2)) := by
  rw [update_normal s m h1 h2, normalUpdate_roll, normalUpdate_pitch, normalUpdate_heading]
  simp only [appliedIncs_eq_damp, damp]
  exact ⟨trivial, trivial, trivial⟩

/-- Witness for `update_damping`: the scenario measurement 1 s after
`restState`. -/
theorem update_damping_witness :
    MinDT ≤ scenarioMeas.T - restState.T ∧ scenarioMeas.T - restState.T ≤ MaxDT ∧
      (restState.Update scenarioMeas).roll = wrapAngle (restState.roll +
        (if (restState.roll - (gpsRefresh restState scenarioMeas
                (scenarioMeas.T - restState.T)).rollGPS) *
              (rawIncs restState scenarioMeas (scenarioMeas.T - restState.T)).1 > 0
         then K * (rawIncs restState scenarioMeas (scenarioMeas.T - restState.T)).1
         else (rawIncs restState scenarioMeas (scenarioMeas.T - restState.T)).1)) := by
  have h1 : MinDT ≤ scenarioMeas.T - restState.T := by norm_num [scenarioMeas, restState, MinDT]
  have h2 : scenarioMeas.T - restState.T ≤ MaxDT := by norm_num [scenarioMeas, restState, MaxDT]
  exact ⟨h1, h2, (update_damping restState scenarioMeas h1 h2).1⟩

/-- C10: in every normal update in the GPS-hold branch (invalid GPS or
groundspeed at most 10 kt) all three Step-5 discrepancies vanish, so no
increment is damped and the fused attitude advances by exactly the raw
gyro increments (then angle-wrapped). -/
theorem update_hold_pure_gyro (s : SimpleState) (m : Measurement)
    (h1 : MinDT ≤ m.T - s.T) (h2 : m.T - s.T ≤ MaxDT)
    (h : m.WValid = false ∨ hypot m.W1 m.W2 ≤ MinGS) :
    s.roll - (gpsRefresh s m (m.T - s.T)).rollGPS = 0 ∧
      s.pitch - (gpsRefresh s m (m.T - s.T)).pitchGPS = 0 ∧
      wrapPi (s.heading - (gpsRefresh s m (m.T - s.T)).headingGPS) = 0 ∧
      appliedIncs s m (m.T - s.T) = rawIncs s m (m.T - s.T) ∧
      (s.Update m).roll = wrapAngle (s.roll + (rawIncs s m (m.T - s.T)).1) ∧
      (s.Update m).pitch = wrapAngle (s.pitch + (rawIncs s m (m.T - s.T)).2.1) ∧
      (s.Update m).heading = wrapAngle (s.heading + (rawIncs s m (m.T - s.T)).2.2) := by
  have hg := gpsRefresh_hold s m (m.T - s.T) h
  have hr : (gpsRefresh s m (m.T - s.T)).rollGPS = s.roll := by rw [hg]
  have hp : (gpsRefresh s m (m.T - s.T)).pitchGPS = s.pitch := by rw [hg]
  have hh : (gpsRefresh s m (m.T - s.T)).headingGPS = s.heading := by rw [hg]
  have happ : appliedIncs s m (m.T - s.T) = rawIncs s m (m.T - s.T) := by
    rw [appliedIncs_eq_damp, hr, hp, hh, sub_self, sub_self, sub_self, wrapPi_zero,
      damp_zero_disc, damp_zero_disc, damp_zero_disc]
  refine ⟨by rw [hr, sub_self], by rw [hp, sub_self], by rw [hh, sub_self, wrapPi_zero],
    happ, ?_, ?_, ?_⟩
  · rw [update_normal s m h1 h2, normalUpdate_roll, happ]
  · rw [update_normal s m h1 h2, normalUpdate_pitch, happ]
  · rw [update_normal s m h1 h2, normalUpdate_heading, happ]

/-- Witness for `update_hold_pure_gyro`: a GPS-invalid measurement with
a nonzero gyro rate 1 s after `restState`. -/
theorem update_hold_pure_gyro_witness :
    MinDT ≤ noGpsMeas.T - restState.T ∧ noGpsMeas.T - restState.T ≤ MaxDT ∧
      appliedIncs restState noGpsMeas (noGpsMeas.T - restState.T) =
        rawIncs restState noGpsMeas (noGpsMeas.T - restState.T) ∧
      (restState.Update noGpsMeas).roll = wrapAngle (restState.roll +
        (rawIncs restState noGpsMeas (noGpsMeas.T - restState.T)).1) := by
  have h1 : MinDT ≤ noGpsMeas.T - restState.T := by norm_num [noGpsMeas, restState, MinDT]
  have h2 : noGpsMeas.T - restState.T ≤ MaxDT := by norm_num [noGpsMeas, restState, MaxDT]
  have H := update_hold_pure_gyro restState noGpsMeas h1 h2 (Or.inl rfl)
  exact ⟨h1, h2, H.2.2.2.1, H.2.2.2.2.1⟩

/-- C2 counterexample: in the spec's end-to-end scenario (level state at
rest, consistent identity quaternion; one measurement at t = 1 s with
zero gyro rates and valid GPS velocity (20, 0, 0)), `Compute` does set
`headingGPS = π/2`, but the fused heading is not strictly between 0 and
π/2: with zero gyro rates every linearized increment is zero and the
damping rule never moves the fused estimate by itself. -/
theorem scenario_counterexample :
    quatConsistent restState ∧
      (restState.Compute scenarioMeas).headingGPS = Real.pi / 2 ∧
      ¬ (0 < (restState.Compute scenarioMeas).heading ∧
          (restState.Compute scenarioMeas).heading < Real.pi / 2) := by
  refine ⟨restState_consistent, scenario_headingGPS, ?_⟩
  rw [scenario_heading]
  rintro ⟨h, -⟩
  exact lt_irrefl 0 h

/-- C2 amended: in the same scenario, after `Compute` the state has
`headingGPS = atan2(20, 0) = π/2` while the fused heading remains
exactly 0 (it lies in [0, π/2) but does not move toward the GPS
heading, because the gyro increment is zero and damping only scales
gyro increments). -/
theorem scenario_amended :
    quatConsistent restState ∧
      (restState.Compute scenarioMeas).headingGPS = Real.pi / 2 ∧
      (restState.Compute scenarioMeas).heading = 0 :=
  ⟨restState_consistent, scenario_headingGPS, scenario_heading⟩

/-- C3: the code's roll denominator `ry` (line 114, carrying the
comment `TODO westphae: this is wrong`) disagrees with the standard
roll denominator `q0² - q1² - q2² + q3²` at the quaternion (0,0,0,1),
while the code's `dry` (line 116) is exactly the first-order part of
the standard denominator, not of the code's `ry`. -/
theorem roll_denominator_bug :
    roll_ry 0 0 0 1 = -1 ∧ stdRollDenom 0 0 0 1 = 1 ∧
      roll_ry 0 0 0 1 ≠ stdRollDenom 0 0 0 1 ∧
      (∀ q0 q1 q2 q3 dq0 dq1 dq2 dq3 : ℝ,
        stdRollDenom (q0 + dq0) (q1 + dq1) (q2 + dq2) (q3 + dq3) -
            stdRollDenom q0 q1 q2 q3 - stdRollDenom dq0 dq1 dq2 dq3 =
          roll_dry q0 q1 q2 q3 dq0 dq1 dq2 dq3) := by
  refine ⟨by norm_num [roll_ry], by norm_num [stdRollDenom],
    by norm_num [roll_ry, stdRollDenom], ?_⟩
  intro q0 q1 q2 q3 dq0 dq1 dq2 dq3
  simp only [stdRollDenom, roll_dry]
  ring

/-- C8 counterexample: at fused heading 0 and GPS heading π (both
reachable values), the Step-5 wrapped discrepancy is −π, which is not
in the claimed half-open interval (−π, π]. -/
theorem wrapPi_boundary_counterexample :
    wrapPi (0 - Real.pi) = -Real.pi ∧ ¬ (-Real.pi < wrapPi (0 - Real.pi)) := by
  have hπ := Real.pi_pos
  have h : wrapPi (0 - Real.pi) = -Real.pi := by
    rw [wrapPi, if_neg (not_lt.mpr (by linarith : (0 : ℝ) - Real.pi ≤ Real.pi)),
      if_neg (not_lt.mpr (by linarith : -Real.pi ≤ (0 : ℝ) - Real.pi))]
    exact zero_sub Real.pi
  exact ⟨h, by rw [h]; exact lt_irrefl _⟩

/-- C8 amended: the single conditional ±2π correction of lines 147-152
maps every discrepancy in [−3π, 3π] into the closed interval [−π, π]
(−π is a fixed point, so the half-open interval (−π, π] is not
achieved), and for headings 179° and −179° the wrapped difference is
−2° in radians, magnitude 2° rather than 358°. -/
theorem wrapPi_range (x : ℝ) (hlo : -(3 * Real.pi) ≤ x) (hhi : x ≤ 3 * Real.pi) :
    (-Real.pi ≤ wrapPi x ∧ wrapPi x ≤ Real.pi) ∧
      wrapPi (179 * (Real.pi / 180) - -179 * (Real.pi / 180)) =
        -(2 * (Real.pi / 180)) := by
  have hπ := Real.pi_pos
  constructor
  · rw [wrapPi]
    split_ifs with hc1 hc2
    · constructor <;> linarith
    · constructor <;> linarith
    · push_neg at hc1 hc2
      exact ⟨hc2, hc1⟩
  · rw [wrapPi, if_pos (by linarith :
      179 * (Real.pi / 180) - -179 * (Real.pi / 180) > Real.pi)]
    ring

/-- Witness for `wrapPi_range`: the discrepancy 2π lies in the window
and wraps into [−π, π]. -/
theorem wrapPi_range_witness :
    -(3 * Real.pi) ≤ 2 * Real.pi ∧ 2 * Real.pi ≤ 3 * Real.pi ∧
      (-Real.pi ≤ wrapPi (2 * Real.pi) ∧ wrapPi (2 * Real.pi) ≤ Real.pi) := by
  have hπ := Real.pi_pos
  have hlo : -(3 * Real.pi) ≤ 2 * Real.pi := by linarith
  have hhi : (2 : ℝ) * Real.pi ≤ 3 * Real.pi := by linarith
  exact ⟨hlo, hhi, (wrapPi_range (2 * Real.pi) hlo hhi).1⟩

end Claims

end Ahrs
